import Mathlib

/-!
Verification of the GreenML mock backend (`src/services/mockBackend.js`).

JavaScript numbers are modelled as rationals (`ℚ`); a JS value that can be
`undefined` or `NaN` is modelled as `Option ℚ` with `none` standing for
"not a finite defined number".  The `Promise`/`setTimeout` wrappers are
dropped: each backend method is embedded as the pure function it resolves
with.  `Math.random()`-based job ids are modelled by passing the generated
id string as an explicit argument.
-/

/-- One region entry of a carbon-intensity snapshot, as the literal objects
in `getCarbonData` / `refreshCarbonData`. -/
structure CarbonInfo where
  region : String
  intensity : ℚ
  source : String
deriving DecidableEq

/-- `mockBackend.getCarbonData`: resolves with the fixed initial snapshot. -/
def getCarbonData : List (String × CarbonInfo) :=
  [("us-east-1", ⟨"US East (N. Virginia)", 38/100, "EPA 2024"⟩),
   ("us-west-2", ⟨"US West (Oregon)", 28/100, "EPA 2024"⟩),
   ("eu-west-1", ⟨"EU West (Ireland)", 32/100, "EEA 2024"⟩),
   ("ap-southeast-1", ⟨"Asia Pacific (Singapore)", 48/100, "Gov SG 2024"⟩),
   ("ca-central-1", ⟨"Canada (Central)", 12/100, "Env Canada 2024"⟩)]

/-- `mockBackend.refreshCarbonData`: takes no argument and resolves with a
fixed refreshed snapshot (each intensity 0.01 lower than the initial one).
The backend keeps no state, so `getCarbonData` is unaffected by it. -/
def refreshCarbonData : List (String × CarbonInfo) :=
  [("us-east-1", ⟨"US East (N. Virginia)", 37/100, "EPA 2024"⟩),
   ("us-west-2", ⟨"US West (Oregon)", 27/100, "EPA 2024"⟩),
   ("eu-west-1", ⟨"EU West (Ireland)", 31/100, "EEA 2024"⟩),
   ("ap-southeast-1", ⟨"Asia Pacific (Singapore)", 47/100, "Gov SG 2024"⟩),
   ("ca-central-1", ⟨"Canada (Central)", 11/100, "Env Canada 2024"⟩)]

/-- The form data passed to `predict` / `calculateEstimatedPower`
(the `formData` state of `CarbonCalculator`). -/
structure FormData where
  model_type : String
  batch_size : ℚ
  dataset_size_gb : ℚ
  gpu_count : ℚ
  gpu_type : String
  duration_hours : ℚ
  region : String

/-- The record `mockBackend.predict` resolves with. -/
structure PredictResult where
  predicted_carbon_kg : Option ℚ
  carbon_by_region : List (String × ℚ)
  greenest_region : String
  potential_savings_kg : Option ℚ
  savings_percentage : Option ℚ
  region : String
  job_id : String
deriving DecidableEq

/-- JS object property lookup `obj[key]` on a string-keyed literal:
`none` models the JS `undefined` for an absent key. -/
def lookupVal (r : String) : List (String × ℚ) → Option ℚ
  | [] => none
  | (k, v) :: rest => if k = r then some v else lookupVal r rest

/-- JS subtraction where either side may be `undefined`/`NaN`
(`undefined - x` and `NaN - x` are `NaN`). -/
def jsSub : Option ℚ → Option ℚ → Option ℚ
  | some a, some b => some (a - b)
  | _, _ => none

/-- JS division: division by zero yields `NaN`/`Infinity` (modelled `none`),
and propagates `undefined`/`NaN` operands. -/
def jsDiv : Option ℚ → Option ℚ → Option ℚ
  | some a, some b => if b = 0 then none else some (a / b)
  | _, _ => none

/-- JS multiplication by a definite number, propagating `NaN`. -/
def jsMul (a : Option ℚ) (b : ℚ) : Option ℚ := a.map (· * b)

/-- `baseCarbon` in `predict`:
`duration_hours * gpu_count * 0.3 + dataset_size_gb * 0.01`. -/
def baseCarbon (fd : FormData) : ℚ :=
  fd.duration_hours * fd.gpu_count * (3/10) + fd.dataset_size_gb * (1/100)

/-- The `carbonByRegion` object literal in `predict`, in its JS insertion
order, with the hard-coded per-region coefficients. -/
def carbonByRegion (fd : FormData) : List (String × ℚ) :=
  [("us-east-1", baseCarbon fd * (38/100)),
   ("us-west-2", baseCarbon fd * (28/100)),
   ("eu-west-1", baseCarbon fd * (32/100)),
   ("ap-southeast-1", baseCarbon fd * (48/100)),
   ("ca-central-1", baseCarbon fd * (12/100))]

/-- `Object.entries(carbonByRegion).sort(([,a],[,b]) => a - b)`:
a stable sort of the entries by ascending value (ES2019 `Array.sort`
is stable; `List.insertionSort` with `·.2 ≤ ·.2` is the stable sort). -/
def sortEntries (l : List (String × ℚ)) : List (String × ℚ) :=
  List.insertionSort (fun a b => a.2 ≤ b.2) l

/-- `greenestRegion` in `predict`: key of the first entry of the sorted
entries (`...sort(...)[0][0]`). -/
def greenestRegion (fd : FormData) : String :=
  ((sortEntries (carbonByRegion fd)).headD ("", 0)).1

/-- `mockBackend.predict`: the value the promise resolves with.  The job id
produced from `Math.random()` is passed in as `jobId`. -/
def predict (fd : FormData) (jobId : String) : PredictResult :=
  let cbr := carbonByRegion fd
  let currentCarbon := lookupVal fd.region cbr
  let greenest := greenestRegion fd
  let bestCarbon := lookupVal greenest cbr
  let savings := jsSub currentCarbon bestCarbon
  { predicted_carbon_kg := currentCarbon
    carbon_by_region := cbr
    greenest_region := greenest
    potential_savings_kg := savings
    savings_percentage := jsMul (jsDiv savings currentCarbon) 100
    region := fd.region
    job_id := jobId }

/-- The `modelPower` lookup table in `calculateEstimatedPower`. -/
def modelPower : List (String × ℚ) :=
  [("ResNet50", 180), ("BERT-Base", 250), ("GPT-2", 350),
   ("ViT", 220), ("YOLO", 150), ("CNN-Small", 80)]

/-- The `gpuPower` lookup table in `calculateEstimatedPower`. -/
def gpuPower : List (String × ℚ) :=
  [("T4", 70), ("V100", 300), ("A100", 400)]

/-- JS `x || d` on a possibly-`undefined` number `x`: a present but falsy
value (`0`) also yields the default, exactly as the `||` in the source. -/
def jsOrDefault (o : Option ℚ) (d : ℚ) : ℚ :=
  match o with
  | some v => if v = 0 then d else v
  | none => d

/-- `mockBackend.calculateEstimatedPower`:
`(modelPower[model_type] || 200) + (gpuPower[gpu_type] || 250) * gpu_count`. -/
def calculateEstimatedPower (fd : FormData) : ℚ :=
  jsOrDefault (lookupVal fd.model_type modelPower) 200 +
    jsOrDefault (lookupVal fd.gpu_type gpuPower) 250 * fd.gpu_count

/-! ## Spec-side definitions (named from the spec's words, for comparison) -/

/-- The five region codes hard-coded in `predict`'s `carbonByRegion`. -/
def knownRegions : List String :=
  ["us-east-1", "us-west-2", "eu-west-1", "ap-southeast-1", "ca-central-1"]

/-- The hard-coded per-region coefficients of `predict`, keyed by region. -/
def regionCoeffs : List (String × ℚ) :=
  [("us-east-1", 38/100), ("us-west-2", 28/100), ("eu-west-1", 32/100),
   ("ap-southeast-1", 48/100), ("ca-central-1", 12/100)]

/-- Spec §4.2: base wattage of a model type, with the documented 200 W
default for an uncatalogued model. -/
def basePower (m : String) : ℚ := (lookupVal m modelPower).getD 200

/-- Spec §4.2: per-GPU wattage, with the documented 250 W default for an
uncatalogued GPU type. -/
def perGpuPower (g : String) : ℚ := (lookupVal g gpuPower).getD 250

/-- Spec §4.3's total energy, as claim C1 states it: the estimated power
times duration over 1000, plus `datasetSizeGb * DATASET_COEFFICIENT` for a
tunable coefficient. -/
def totalEnergySpec (coeff : ℚ) (fd : FormData) : ℚ :=
  calculateEstimatedPower fd * fd.duration_hours / 1000 +
    fd.dataset_size_gb * coeff

/-- Claim C1 as a proposition: for some dataset coefficient, for every form
input and every snapshot the program can serve, every region of that
snapshot is priced in `predict`'s output as the spec's total energy times
that region's snapshot intensity. -/
def C1Prop : Prop :=
  ∃ coeff : ℚ, ∀ (fd : FormData) (j : String)
    (s : List (String × CarbonInfo)),
    (s = getCarbonData ∨ s = refreshCarbonData) →
    ∀ r info, (r, info) ∈ s →
      lookupVal r (predict fd j).carbon_by_region =
        some (totalEnergySpec coeff fd * info.intensity)

/-! ## Helper lemmas about the stable sort used by `predict` -/

/-- The value-comparison relation of the JS comparator is total. -/
instance : IsTotal (String × ℚ) (fun a b => a.2 ≤ b.2) :=
  ⟨fun a b => le_total a.2 b.2⟩

/-- The value-comparison relation of the JS comparator is transitive. -/
instance : IsTrans (String × ℚ) (fun a b => a.2 ≤ b.2) :=
  ⟨fun _ _ _ h1 h2 => le_trans h1 h2⟩

theorem mem_sortEntries {l : List (String × ℚ)} {y : String × ℚ} :
    y ∈ sortEntries l ↔ y ∈ l := by
  unfold sortEntries
  exact List.mem_insertionSort _

theorem sortEntries_sorted (l : List (String × ℚ)) :
    (sortEntries l).Sorted (fun a b => a.2 ≤ b.2) :=
  List.sorted_insertionSort _ l

theorem sortEntries_ne_nil {l : List (String × ℚ)} (h : l ≠ []) :
    sortEntries l ≠ [] := by
  intro hs
  exact h (List.eq_nil_of_length_eq_zero (by
    have := (List.perm_insertionSort (fun a b : String × ℚ => a.2 ≤ b.2) l).length_eq
    rw [← this]
    simpa [sortEntries] using congrArg List.length hs))

theorem sortEntries_headD_mem {l : List (String × ℚ)} (h : l ≠ [])
    (d : String × ℚ) : (sortEntries l).headD d ∈ l := by
  rw [← mem_sortEntries]
  cases hs : sortEntries l with
  | nil => exact absurd hs (sortEntries_ne_nil h)
  | cons a t => simp [hs]

theorem sortEntries_headD_le {l : List (String × ℚ)} {y : String × ℚ}
    (hy : y ∈ l) (d : String × ℚ) :
    ((sortEntries l).headD d).2 ≤ y.2 := by
  rw [← mem_sortEntries (l := l)] at hy
  cases hs : sortEntries l with
  | nil => rw [hs] at hy; exact absurd hy (List.not_mem_nil y)
  | cons a t =>
    rw [hs] at hy
    have hsorted := sortEntries_sorted l
    rw [hs] at hsorted
    rcases List.mem_cons.1 hy with h1 | h1
    · rw [h1]; simp
    · simpa using List.rel_of_sorted_cons hsorted y h1

/-! ## Program-level helper lemmas -/

theorem carbonByRegion_ne_nil (fd : FormData) : carbonByRegion fd ≠ [] := by
  simp [carbonByRegion]

/-- The greenest-region lookup always succeeds and returns the minimal
sorted entry's value. -/
theorem lookup_greenest (fd : FormData) :
    lookupVal (greenestRegion fd) (carbonByRegion fd) =
      some ((sortEntries (carbonByRegion fd)).headD ("", 0)).2 := by
  have hmem := sortEntries_headD_mem (carbonByRegion_ne_nil fd) ("", 0)
  set h := (sortEntries (carbonByRegion fd)).headD ("", 0) with hh
  have hgr : greenestRegion fd = h.1 := rfl
  rw [hgr]
  rw [carbonByRegion] at hmem
  simp only [List.mem_cons, List.not_mem_nil, or_false] at hmem
  rcases hmem with h1 | h1 | h1 | h1 | h1 <;>
    rw [h1] <;> simp [lookupVal, carbonByRegion]

/-- The head of the sorted entries is a lower bound of every carbon value. -/
theorem headD_le_all (fd : FormData) {r : String} {c : ℚ}
    (h : (r, c) ∈ carbonByRegion fd) :
    ((sortEntries (carbonByRegion fd)).headD ("", 0)).2 ≤ c :=
  sortEntries_headD_le h ("", 0)

theorem jsSub_none_left (b : Option ℚ) : jsSub none b = none := by
  cases b <;> rfl

theorem jsDiv_none_left (b : Option ℚ) : jsDiv none b = none := by
  cases b <;> rfl

/-- Looking up any of the five known regions yields the base carbon scaled
by that region's hard-coded coefficient. -/
theorem lookup_region {r : String} {c : ℚ} (fd : FormData)
    (h : (r, c) ∈ regionCoeffs) :
    lookupVal r (carbonByRegion fd) = some (baseCarbon fd * c) := by
  simp only [regionCoeffs, List.mem_cons, List.not_mem_nil, or_false,
    Prod.mk.injEq] at h
  rcases h with ⟨rfl, rfl⟩ | ⟨rfl, rfl⟩ | ⟨rfl, rfl⟩ | ⟨rfl, rfl⟩ |
    ⟨rfl, rfl⟩ <;> simp [lookupVal, carbonByRegion]

/-! ## Concrete inputs used by counterexamples and witnesses -/

/-- A one-GPU, one-hour job with no dataset, on a catalogued model and GPU. -/
def oneGpuForm : FormData :=
  { model_type := "ResNet50", batch_size := 32, dataset_size_gb := 0,
    gpu_count := 1, gpu_type := "V100", duration_hours := 1,
    region := "us-east-1" }

/-- The calculator form's default values. -/
def defaultForm : FormData :=
  { model_type := "ResNet50", batch_size := 32, dataset_size_gb := 100,
    gpu_count := 2, gpu_type := "V100", duration_hours := 4,
    region := "us-east-1" }

/-- A degenerate input on which `baseCarbon` is `0`, so every region's
carbon ties at `0`. -/
def zeroForm : FormData :=
  { model_type := "ResNet50", batch_size := 0, dataset_size_gb := 0,
    gpu_count := 0, gpu_type := "V100", duration_hours := 0,
    region := "us-east-1" }

/-- The spec's unknown-region scenario: `region = "C"` is not a known
region. -/
def unknownForm : FormData :=
  { model_type := "ResNet50", batch_size := 32, dataset_size_gb := 100,
    gpu_count := 2, gpu_type := "V100", duration_hours := 4,
    region := "C" }

/-! ## Claim C1 -/

/-- Claim C1 is false on the code: `predict` never multiplies the estimated
power by the snapshot intensity.  At `oneGpuForm` the estimated power is
480 W, so the claim would price us-east-1 at
`0.48 * 0.38 = 0.1824` kg for every dataset coefficient, while `predict`
returns `0.3 * 0.38 = 0.114` kg. -/
theorem c1_counterexample : ¬ C1Prop := by
  rintro ⟨coeff, h⟩
  have h1 := h oneGpuForm "J" getCarbonData (Or.inl rfl) "us-east-1"
    ⟨"US East (N. Virginia)", 38/100, "EPA 2024"⟩
    (by rw [getCarbonData]; exact List.mem_cons_self _ _)
  norm_num +decide [predict, lookupVal, carbonByRegion, baseCarbon,
    totalEnergySpec, calculateEstimatedPower, jsOrDefault, modelPower,
    gpuPower, oneGpuForm] at h1

/-- Claim C1 (amended): `predict` prices every region as
`baseCarbon = duration_hours * gpu_count * 0.3 + dataset_size_gb * 0.01`
times that region's hard-coded coefficient; the estimated power and the
snapshot intensities play no part. -/
theorem c1_amended {r : String} {c : ℚ} (fd : FormData) (j : String)
    (h : (r, c) ∈ regionCoeffs) :
    lookupVal r (predict fd j).carbon_by_region =
      some ((fd.duration_hours * fd.gpu_count * (3/10) +
        fd.dataset_size_gb * (1/100)) * c) := by
  have : (predict fd j).carbon_by_region = carbonByRegion fd := rfl
  rw [this, lookup_region fd h, baseCarbon]

/-- Witness for the amended C1 at `oneGpuForm` and region us-west-2. -/
theorem c1_amended_witness :
    lookupVal "us-west-2" (predict oneGpuForm "J").carbon_by_region =
      some ((oneGpuForm.duration_hours * oneGpuForm.gpu_count * (3/10) +
        oneGpuForm.dataset_size_gb * (1/100)) * (28/100)) :=
  c1_amended oneGpuForm "J" (by simp [regionCoeffs])

/-! ## Claim C2 -/

/-- Claim C2 is false on the code: with `region = "C"` absent from the five
known regions, `predict` raises nothing and resolves a result whose
predicted carbon, savings and savings percentage are all `undefined`
(there is no `UnknownRegionError` anywhere in the backend). -/
theorem c2_counterexample :
    "C" ∉ knownRegions ∧
    (predict unknownForm "J").predicted_carbon_kg = none ∧
    (predict unknownForm "J").potential_savings_kg = none ∧
    (predict unknownForm "J").savings_percentage = none := by
  refine ⟨by decide, ?_, ?_, ?_⟩ <;>
    norm_num +decide [predict, jsSub, jsDiv, jsMul, lookupVal,
      carbonByRegion, baseCarbon, unknownForm]

/-- Claim C2 (amended): for a region absent from the five known regions,
`predict` does not fail; it resolves a full result in which
`predicted_carbon_kg`, `potential_savings_kg` and `savings_percentage` are
`undefined`/`NaN`, while `carbon_by_region` is still the usual five-entry
map. -/
theorem c2_amended (fd : FormData) (j : String)
    (h : fd.region ∉ knownRegions) :
    (predict fd j).predicted_carbon_kg = none ∧
    (predict fd j).potential_savings_kg = none ∧
    (predict fd j).savings_percentage = none ∧
    (predict fd j).carbon_by_region = carbonByRegion fd := by
  simp only [knownRegions, List.mem_cons, List.not_mem_nil, or_false,
    not_or] at h
  obtain ⟨h1, h2, h3, h4, h5⟩ := h
  have hl : lookupVal fd.region (carbonByRegion fd) = none := by
    simp [lookupVal, carbonByRegion, Ne.symm h1, Ne.symm h2, Ne.symm h3,
      Ne.symm h4, Ne.symm h5]
  have hp : (predict fd j).predicted_carbon_kg =
      lookupVal fd.region (carbonByRegion fd) := rfl
  have hs : (predict fd j).potential_savings_kg =
      jsSub (lookupVal fd.region (carbonByRegion fd))
        (lookupVal (greenestRegion fd) (carbonByRegion fd)) := rfl
  have hsp : (predict fd j).savings_percentage =
      jsMul (jsDiv (jsSub (lookupVal fd.region (carbonByRegion fd))
          (lookupVal (greenestRegion fd) (carbonByRegion fd)))
        (lookupVal fd.region (carbonByRegion fd))) 100 := rfl
  refine ⟨by rw [hp, hl], by rw [hs, hl, jsSub_none_left], ?_, rfl⟩
  rw [hsp, hl, jsSub_none_left, jsDiv_none_left]
  rfl

/-- Witness for the amended C2 at the spec's own scenario input. -/
theorem c2_amended_witness :
    (predict unknownForm "J").predicted_carbon_kg = none ∧
    (predict unknownForm "J").potential_savings_kg = none ∧
    (predict unknownForm "J").savings_percentage = none ∧
    (predict unknownForm "J").carbon_by_region = carbonByRegion unknownForm :=
  c2_amended unknownForm "J" (by decide)

/-! ## Claim C3 -/

/-- Claim C3: for either snapshot the backend can serve (the initial one and
the refreshed one), the `carbon_by_region` mapping has exactly one entry per
snapshot region — its key list equals the snapshot's key list, with no
duplicates.  (Both snapshots list exactly the five regions that `predict`
hard-codes; `predict` itself reads no snapshot.) -/
theorem c3_keys (fd : FormData) (j : String)
    (s : List (String × CarbonInfo))
    (h : s = getCarbonData ∨ s = refreshCarbonData) :
    (predict fd j).carbon_by_region.map Prod.fst = s.map Prod.fst ∧
    ((predict fd j).carbon_by_region.map Prod.fst).Nodup := by
  have hmap : (predict fd j).carbon_by_region.map Prod.fst = knownRegions := by
    simp [predict, carbonByRegion, knownRegions]
  rcases h with rfl | rfl <;>
    exact ⟨by rw [hmap]; decide, by rw [hmap]; decide⟩

/-- Witness for C3 at `defaultForm` and the initial snapshot. -/
theorem c3_keys_witness :
    (predict defaultForm "J").carbon_by_region.map Prod.fst =
      getCarbonData.map Prod.fst ∧
    ((predict defaultForm "J").carbon_by_region.map Prod.fst).Nodup :=
  c3_keys defaultForm "J" getCarbonData (Or.inl rfl)

/-! ## Claim C4 -/

/-- Claim C4 is false on the code: ties are broken by the fixed insertion
order of the `carbonByRegion` object, not lexicographically.  On `zeroForm`
every region's carbon is `0` (a five-way tie); the stable sort keeps the
insertion order, so `greenest_region` is `"us-east-1"`, although
`"ap-southeast-1"` also attains the minimum and is lexicographically
smaller. -/
theorem c4_counterexample :
    (predict zeroForm "J").greenest_region = "us-east-1" ∧
    lookupVal "ap-southeast-1" (predict zeroForm "J").carbon_by_region =
      lookupVal "us-east-1" (predict zeroForm "J").carbon_by_region ∧
    ("ap-southeast-1" : String) < "us-east-1" := by
  refine ⟨?_, ?_, ?_⟩
  · norm_num +decide [predict, greenestRegion, sortEntries, carbonByRegion,
      baseCarbon, zeroForm, List.insertionSort, List.orderedInsert]
  · norm_num +decide [predict, lookupVal, carbonByRegion, baseCarbon,
      zeroForm]
  · rw [String.lt_iff_toList_lt]
    decide

/-- Claim C4 (amended): `greenest_region` is an arg-min of
`carbon_by_region` (its value is ≤ every region's value), and the tie-break
is deterministic but follows the fixed insertion order
us-east-1, us-west-2, eu-west-1, ap-southeast-1, ca-central-1 rather than
lexicographic order; in the only possible tie (`baseCarbon = 0`, all five
values equal) the chosen region is `"us-east-1"`. -/
theorem c4_amended (fd : FormData) (j : String) :
    (∃ b, lookupVal (predict fd j).greenest_region
        (predict fd j).carbon_by_region = some b ∧
      ∀ r c, (r, c) ∈ (predict fd j).carbon_by_region → b ≤ c) ∧
    (baseCarbon fd = 0 → (predict fd j).greenest_region = "us-east-1") := by
  have hcbr : (predict fd j).carbon_by_region = carbonByRegion fd := rfl
  have hgr : (predict fd j).greenest_region = greenestRegion fd := rfl
  constructor
  · refine ⟨((sortEntries (carbonByRegion fd)).headD ("", 0)).2, ?_, ?_⟩
    · rw [hcbr, hgr]
      exact lookup_greenest fd
    · intro r c hc
      rw [hcbr] at hc
      exact headD_le_all fd hc
  · intro hb
    have hc0 : carbonByRegion fd =
        [("us-east-1", 0), ("us-west-2", 0), ("eu-west-1", 0),
         ("ap-southeast-1", 0), ("ca-central-1", 0)] := by
      simp [carbonByRegion, hb]
    rw [hgr, greenestRegion, hc0]
    norm_num [sortEntries, List.insertionSort, List.orderedInsert]

/-- Witness for the amended C4: on `zeroForm` the tie resolves to
us-east-1. -/
theorem c4_amended_witness :
    baseCarbon zeroForm = 0 ∧
    (predict zeroForm "J").greenest_region = "us-east-1" :=
  ⟨by norm_num [baseCarbon, zeroForm],
    (c4_amended zeroForm "J").2 (by norm_num [baseCarbon, zeroForm])⟩

/-! ## Claim C5 -/

theorem modelPower_lookup_ne_zero {m : String} {v : ℚ}
    (h : lookupVal m modelPower = some v) : v ≠ 0 := by
  simp only [modelPower, lookupVal] at h
  split_ifs at h <;> simp only [Option.some.injEq] at h <;>
    rw [← h] <;> norm_num

theorem gpuPower_lookup_ne_zero {g : String} {v : ℚ}
    (h : lookupVal g gpuPower = some v) : v ≠ 0 := by
  simp only [gpuPower, lookupVal] at h
  split_ifs at h <;> simp only [Option.some.injEq] at h <;>
    rw [← h] <;> norm_num

/-- Claim C5: `calculateEstimatedPower` always equals
`basePower(model_type) + perGpuPower(gpu_type) * gpu_count`, where an
uncatalogued model type contributes the 200 W default and an uncatalogued
GPU type the 250 W-per-GPU default; the function is total, so no input
makes it fail.  (The JS `||` would also misread a catalogued 0 W entry as
missing, but neither table has a zero entry, so `||` agrees with the
default-on-absence reading.) -/
theorem c5_power_model (fd : FormData) :
    calculateEstimatedPower fd =
      basePower fd.model_type + perGpuPower fd.gpu_type * fd.gpu_count := by
  have hm : jsOrDefault (lookupVal fd.model_type modelPower) 200 =
      (lookupVal fd.model_type modelPower).getD 200 := by
    cases hv : lookupVal fd.model_type modelPower with
    | none => rfl
    | some v => simp [jsOrDefault, modelPower_lookup_ne_zero hv]
  have hg : jsOrDefault (lookupVal fd.gpu_type gpuPower) 250 =
      (lookupVal fd.gpu_type gpuPower).getD 250 := by
    cases hv : lookupVal fd.gpu_type gpuPower with
    | none => rfl
    | some v => simp [jsOrDefault, gpuPower_lookup_ne_zero hv]
  rw [calculateEstimatedPower, basePower, perGpuPower, hm, hg]

/-! ## Claim C6 -/

/-- Claim C6 is false on the code: there is no zero-guard.  On `zeroForm`
the selected region's carbon is `0`, and `savings_percentage` is the JS
`0/0 = NaN` (modelled `none`), not `0`. -/
theorem c6_counterexample :
    (predict zeroForm "J").predicted_carbon_kg = some 0 ∧
    (predict zeroForm "J").savings_percentage = none := by
  constructor <;>
    norm_num +decide [predict, jsSub, jsDiv, jsMul, lookupVal,
      carbonByRegion, baseCarbon, zeroForm, greenestRegion, sortEntries,
      List.insertionSort, List.orderedInsert]

/-- Claim C6 (amended): whenever the selected region's carbon is defined,
`potential_savings_kg` is that carbon minus the greenest region's carbon;
`savings_percentage` is `savings / current * 100` when the current carbon
is non-zero, and is `NaN` (undefined), not `0`, when the current carbon is
zero. -/
theorem c6_amended (fd : FormData) (j : String) (c : ℚ)
    (h : (predict fd j).predicted_carbon_kg = some c) :
    ∃ b, lookupVal (predict fd j).greenest_region
        (predict fd j).carbon_by_region = some b ∧
      (predict fd j).potential_savings_kg = some (c - b) ∧
      (c ≠ 0 → (predict fd j).savings_percentage =
        some ((c - b) / c * 100)) ∧
      (c = 0 → (predict fd j).savings_percentage = none) := by
  have hp : (predict fd j).predicted_carbon_kg =
      lookupVal fd.region (carbonByRegion fd) := rfl
  rw [hp] at h
  have hbest := lookup_greenest fd
  have hgr : (predict fd j).greenest_region = greenestRegion fd := rfl
  have hcbr : (predict fd j).carbon_by_region = carbonByRegion fd := rfl
  refine ⟨((sortEntries (carbonByRegion fd)).headD ("", 0)).2,
    by rw [hgr, hcbr]; exact hbest, ?_, ?_, ?_⟩
  · have hs : (predict fd j).potential_savings_kg =
        jsSub (lookupVal fd.region (carbonByRegion fd))
          (lookupVal (greenestRegion fd) (carbonByRegion fd)) := rfl
    rw [hs, h, hbest]
    rfl
  · intro hc
    have hsp : (predict fd j).savings_percentage =
        jsMul (jsDiv (jsSub (lookupVal fd.region (carbonByRegion fd))
            (lookupVal (greenestRegion fd) (carbonByRegion fd)))
          (lookupVal fd.region (carbonByRegion fd))) 100 := rfl
    rw [hsp, h, hbest]
    simp [jsSub, jsDiv, jsMul, hc]
  · intro hc
    subst hc
    have hsp : (predict fd j).savings_percentage =
        jsMul (jsDiv (jsSub (lookupVal fd.region (carbonByRegion fd))
            (lookupVal (greenestRegion fd) (carbonByRegion fd)))
          (lookupVal fd.region (carbonByRegion fd))) 100 := rfl
    rw [hsp, h, hbest]
    simp [jsSub, jsDiv, jsMul]

/-- Witness for the amended C6 at `oneGpuForm`, whose current carbon is
`0.114`. -/
theorem c6_amended_witness :
    ∃ b, lookupVal (predict oneGpuForm "J").greenest_region
        (predict oneGpuForm "J").carbon_by_region = some b ∧
      (predict oneGpuForm "J").potential_savings_kg =
        some (114/1000 - b) ∧
      ((114:ℚ)/1000 ≠ 0 → (predict oneGpuForm "J").savings_percentage =
        some ((114/1000 - b) / (114/1000) * 100)) ∧
      ((114:ℚ)/1000 = 0 → (predict oneGpuForm "J").savings_percentage =
        none) :=
  c6_amended oneGpuForm "J" (114/1000)
    (by norm_num +decide [predict, lookupVal, carbonByRegion, baseCarbon,
      oneGpuForm])

/-! ## Claim C7 -/

/-- Claim C7: `predict` is deterministic apart from the job id.  Its only
non-deterministic input is the `Math.random()`-derived id (modelled as the
explicit `jobId` argument), and it reads no snapshot at all, so two calls
on the same form data agree on `carbon_by_region`, `greenest_region` and
`potential_savings_kg` whatever ids the two calls draw. -/
theorem c7_idempotent (fd : FormData) (j j' : String) :
    (predict fd j).carbon_by_region = (predict fd j').carbon_by_region ∧
    (predict fd j).greenest_region = (predict fd j').greenest_region ∧
    (predict fd j).potential_savings_kg =
      (predict fd j').potential_savings_kg :=
  ⟨rfl, rfl, rfl⟩

/-! ## Claim C8 -/

/-- Every value of `carbonByRegion` is the base carbon times a
non-negative coefficient. -/
theorem carbonByRegion_value_nonneg (fd : FormData)
    (h : 0 ≤ baseCarbon fd) :
    ∀ p ∈ carbonByRegion fd, 0 ≤ p.2 := by
  intro p hp
  simp only [carbonByRegion, List.mem_cons, List.not_mem_nil, or_false]
    at hp
  rcases hp with rfl | rfl | rfl | rfl | rfl <;> simp only [] <;> nlinarith

/-- Claim C8: for a valid form (positive duration, at least one GPU,
positive dataset and batch sizes, a known region) and either snapshot the
backend can serve — both of which have non-negative intensities — the
savings percentage is defined and lies in [0, 100].  (The snapshot cannot
influence the value: `predict` reads none.) -/
theorem c8_savings_percent_bounds (fd : FormData) (j : String)
    (s : List (String × CarbonInfo))
    (hs : s = getCarbonData ∨ s = refreshCarbonData)
    (hnn : ∀ p ∈ s, 0 ≤ p.2.intensity)
    (hdur : 0 < fd.duration_hours) (hgpu : 1 ≤ fd.gpu_count)
    (hds : 0 < fd.dataset_size_gb) (hbatch : 0 < fd.batch_size)
    (hreg : fd.region ∈ knownRegions) :
    ∃ p, (predict fd j).savings_percentage = some p ∧ 0 ≤ p ∧ p ≤ 100 := by
  have hbase : 0 < baseCarbon fd := by
    rw [baseCarbon]
    nlinarith
  obtain ⟨c, hcpos, hmem, hcur⟩ :
      ∃ c : ℚ, 0 < c ∧ (fd.region, baseCarbon fd * c) ∈ carbonByRegion fd ∧
        lookupVal fd.region (carbonByRegion fd) =
          some (baseCarbon fd * c) := by
    simp only [knownRegions, List.mem_cons, List.not_mem_nil, or_false]
      at hreg
    rcases hreg with h | h | h | h | h <;> rw [h]
    · exact ⟨38/100, by norm_num, by simp [carbonByRegion],
        by simp [lookupVal, carbonByRegion]⟩
    · exact ⟨28/100, by norm_num, by simp [carbonByRegion],
        by simp [lookupVal, carbonByRegion]⟩
    · exact ⟨32/100, by norm_num, by simp [carbonByRegion],
        by simp [lookupVal, carbonByRegion]⟩
    · exact ⟨48/100, by norm_num, by simp [carbonByRegion],
        by simp [lookupVal, carbonByRegion]⟩
    · exact ⟨12/100, by norm_num, by simp [carbonByRegion],
        by simp [lookupVal, carbonByRegion]⟩
  have hbest := lookup_greenest fd
  set b := ((sortEntries (carbonByRegion fd)).headD ("", 0)).2 with hbdef
  have hble : b ≤ baseCarbon fd * c := headD_le_all fd hmem
  have hbnn : 0 ≤ b :=
    carbonByRegion_value_nonneg fd hbase.le _
      (sortEntries_headD_mem (carbonByRegion_ne_nil fd) ("", 0))
  have hcurpos : 0 < baseCarbon fd * c := mul_pos hbase hcpos
  have hsp : (predict fd j).savings_percentage =
      jsMul (jsDiv (jsSub (lookupVal fd.region (carbonByRegion fd))
          (lookupVal (greenestRegion fd) (carbonByRegion fd)))
        (lookupVal fd.region (carbonByRegion fd))) 100 := rfl
  rw [hsp, hcur, hbest]
  refine ⟨(baseCarbon fd * c - b) / (baseCarbon fd * c) * 100, ?_, ?_, ?_⟩
  · simp [jsSub, jsDiv, jsMul, ne_of_gt hcurpos]
  · have h1 : 0 ≤ (baseCarbon fd * c - b) / (baseCarbon fd * c) :=
      div_nonneg (by linarith) hcurpos.le
    nlinarith [h1]
  · have h2 : (baseCarbon fd * c - b) / (baseCarbon fd * c) ≤ 1 := by
      rw [div_le_one hcurpos]
      linarith
    nlinarith [h2]

/-- Witness for C8 at the calculator's default form and the initial
snapshot. -/
theorem c8_savings_percent_bounds_witness :
    ∃ p, (predict defaultForm "J").savings_percentage = some p ∧
      0 ≤ p ∧ p ≤ 100 :=
  c8_savings_percent_bounds defaultForm "J" getCarbonData (Or.inl rfl)
    (by norm_num [getCarbonData])
    (by norm_num [defaultForm]) (by norm_num [defaultForm])
    (by norm_num [defaultForm]) (by norm_num [defaultForm])
    (by decide)

/-! ## Claim C9 -/

/-- Claim C9 as a proposition.  The backend keeps no registry state:
`refreshCarbonData` takes no `newData` argument and resolves with a fixed
constant, and a subsequent `snapshot()` read is `getCarbonData`, another
fixed constant.  The refresh round-trip "refresh(X); snapshot() == X" can
therefore only mean that the value served by `getCarbonData` equals the
value `refreshCarbonData` just returned. -/
def C9Prop : Prop := getCarbonData = refreshCarbonData

/-- Claim C9 is false on the code: after a refresh returns the 0.37/0.27/…
snapshot, `getCarbonData` still serves the original 0.38/0.28/… snapshot,
so a snapshot read does not return the refreshed value. -/
theorem c9_counterexample : ¬ C9Prop := by
  intro h
  have h1 := congrArg (List.map fun p => p.2.intensity) h
  norm_num [getCarbonData, refreshCarbonData] at h1

/-- Claim C9 (amended): `refreshCarbonData` accepts no new snapshot and the
backend stores nothing; it returns a fixed fresher snapshot covering the
same five regions with every intensity exactly 0.01 lower, while
`getCarbonData` keeps returning the original snapshot, so the two reads
differ. -/
theorem c9_amended :
    refreshCarbonData.map Prod.fst = getCarbonData.map Prod.fst ∧
    refreshCarbonData.map (fun p => p.2.intensity) =
      getCarbonData.map (fun p => p.2.intensity - 1/100) ∧
    getCarbonData ≠ refreshCarbonData := by
  refine ⟨by norm_num [getCarbonData, refreshCarbonData],
    by norm_num [getCarbonData, refreshCarbonData], ?_⟩
  intro h
  have h1 := congrArg (List.map fun p => p.2.intensity) h
  norm_num [getCarbonData, refreshCarbonData] at h1

/-! ## Claim C10 -/

/-- Claim C10: `predict` reads no snapshot — its output is a function of
the form data (and drawn job id) alone — and prices every region as the
base carbon times the built-in constants 0.38, 0.28, 0.32, 0.48, 0.12;
whenever the base carbon is positive, the strictly smallest product is
ca-central-1's, so `greenest_region` is always `"ca-central-1"`. -/
theorem c10_snapshot_independent (fd : FormData) (j : String)
    (h : 0 < baseCarbon fd) :
    (predict fd j).carbon_by_region =
      regionCoeffs.map (fun p => (p.1, baseCarbon fd * p.2)) ∧
    (predict fd j).greenest_region = "ca-central-1" := by
  constructor
  · simp [predict, carbonByRegion, regionCoeffs]
  · have hgr : (predict fd j).greenest_region = greenestRegion fd := rfl
    have hle : ((sortEntries (carbonByRegion fd)).headD ("", 0)).2 ≤
        baseCarbon fd * (12/100) :=
      @headD_le_all fd "ca-central-1" (baseCarbon fd * (12/100))
        (by simp [carbonByRegion])
    have hmem := sortEntries_headD_mem (carbonByRegion_ne_nil fd) ("", 0)
    rw [hgr, greenestRegion]
    rw [carbonByRegion] at hmem hle ⊢
    simp only [List.mem_cons, List.not_mem_nil, or_false] at hmem
    rcases hmem with h1 | h1 | h1 | h1 | h1 <;> rw [h1] <;> rw [h1] at hle <;>
      first
        | rfl
        | (exfalso; revert hle; simp only []; intro hle; nlinarith)

/-- Witness for C10 at `oneGpuForm`, whose base carbon is `0.3 > 0`. -/
theorem c10_snapshot_independent_witness :
    0 < baseCarbon oneGpuForm ∧
    (predict oneGpuForm "J").greenest_region = "ca-central-1" :=
  ⟨by norm_num [baseCarbon, oneGpuForm],
    (c10_snapshot_independent oneGpuForm "J"
      (by norm_num [baseCarbon, oneGpuForm])).2⟩
